import Mathlib

/-!
# Ledger/Payment Core of the job-portal backend — shallow embedding

This file embeds the two core operations of the repository's
Ledger/Payment Core in Lean 4 and proves the spec's claims about them:

* `payJob` — the handler of `POST /jobs/:job_id/pay`
  (`src/unnamed/part_000`, lines 151–228): validates caller role,
  job existence, paid flag, contract ownership and funds, then moves
  `price` from the client balance to the contractor balance and marks
  the job paid, all inside one transaction.
* `deposit` — the handler of `POST /balances/deposit/:userId`
  (`src/src/routes/adminRoutes.js`, lines 299–386): validates the
  caller, parses and rounds the amount, computes the 25 % cap over the
  client's unpaid in-progress jobs and applies the balance increase.

Modelling conventions:

* Monetary values stored in the database (balances, prices) are `ℚ`.
  The JavaScript engine computes on IEEE doubles; the spec describes
  the arithmetic as exact decimal arithmetic ("no rounding drift"), so
  the embedding uses exact rationals.
* The request-body `amount` passes through `parseFloat` and can be
  `NaN` or `±Infinity`; it is embedded as `JsNum`, an explicit
  extension of `ℚ` with those three values, with the comparison
  semantics of JavaScript (`NaN` compares false).
* `Number.prototype.toFixed(2)` followed by `parseFloat` is embedded
  as round-half-up to two decimal digits (`round2`).
* A database transaction makes the whole handler atomic: every failure
  path issues `t.rollback()`, so a rejected call returns the pre-state
  unchanged.  Persistence failures (the `catch` branches) are embedded
  by an oracle parameter `failAt : Option Nat`: `some k` makes the
  k-th write (or the commit) of the success path throw, after which
  the rollback restores the pre-state and the handler answers 500.
* Sequelize model definitions (`../model`) are not part of the sources;
  the record types below follow the spec's data model (§3): Profile
  (id, role, balance), Contract (id, client, contractor, status),
  Job (id, contract, price, tri-state paid flag, paymentDate).
-/

/-- Role tag of a profile (`Profile.type` column: 'client' / 'contractor'). -/
inductive PType where
  | client
  | contractor
deriving DecidableEq, Repr

/-- Contract lifecycle status (`ContractStatus` enum:
'new' / 'in_progress' / 'terminated'). -/
inductive CStatus where
  | fresh
  | inProgress
  | terminated
deriving DecidableEq, Repr

/-- An account row (spec §3 "Account (Profile)"): identity, role tag and
monetary balance. -/
structure Profile where
  id : Nat
  ptype : PType
  balance : ℚ
deriving DecidableEq, Repr

/-- A contract row: links one client id and one contractor id, with a
lifecycle status. -/
structure Contract where
  id : Nat
  clientId : Nat
  contractorId : Nat
  status : CStatus
deriving DecidableEq, Repr

/-- A job row: belongs to one contract, has a price, a legacy tri-state
`paid` flag (`none` = SQL NULL) and an optional payment date. -/
structure Job where
  id : Nat
  contractId : Nat
  price : ℚ
  paid : Option Bool
  paymentDate : Option Nat
deriving DecidableEq, Repr

/-- The database state the two handlers read and write. -/
structure State where
  profiles : List Profile
  contracts : List Contract
  jobs : List Job
deriving DecidableEq, Repr

/-- `Profile.findOne({where: {id}})`. -/
def findProfile (s : State) (pid : Nat) : Option Profile :=
  s.profiles.find? (fun p => p.id = pid)

/-- `Contract.findOne({where: {id}})` (the `include: Contract` join of a
job lookup resolves the job's `ContractId` foreign key). -/
def findContract (s : State) (cid : Nat) : Option Contract :=
  s.contracts.find? (fun c => c.id = cid)

/-- `Job.findOne({where: {id: job_id}})`. -/
def findJob (s : State) (jid : Nat) : Option Job :=
  s.jobs.find? (fun j => j.id = jid)

/-- `profile.update({balance})`: write the balance of the row with the
given primary key. -/
def updateBalance (s : State) (pid : Nat) (b : ℚ) : State :=
  { s with profiles :=
      s.profiles.map (fun p => if p.id = pid then { p with balance := b } else p) }

/-- `job.update({paid: true, paymentDate: new Date()})`. -/
def markPaid (s : State) (jid : Nat) (now : Nat) : State :=
  { s with jobs :=
      s.jobs.map (fun j =>
        if j.id = jid then { j with paid := some true, paymentDate := some now } else j) }

/-- The paid test of the payment handler, line 188 of the job route:
`job.paid === true` — strictly `true`; `false` and `null` both count as
unpaid. -/
def jobIsPaid (j : Job) : Bool :=
  j.paid = some true

/-- The unpaid filter of the deposit handler's job query (lines 338–341):
`paid = false OR paid IS NULL`. -/
def isUnpaid (p : Option Bool) : Bool :=
  p = some false || p = none

/-- Response of the payment handler, one constructor per exit path of
`POST /jobs/:job_id/pay`. -/
inductive PayResp where
  /-- 200 `Payment successful`. -/
  | ok
  /-- 401 from the `getProfile` middleware (no such profile). -/
  | unauthorized
  /-- 403 `Only clients can pay for jobs` (caller role check, line 156). -/
  | forbiddenNotClient
  /-- 404 `Job not found` (line 180). -/
  | notFound
  /-- 400 `Job has already been paid` (line 188). -/
  | alreadyPaid
  /-- 403 `You are not the client for this job` (line 194). -/
  | forbiddenNotOwner
  /-- 400 `Insufficient balance` (line 200). -/
  | insufficientFunds
  /-- 500 from the `catch` branch (line 222): persistence error, rolled back. -/
  | internalError
deriving DecidableEq, Repr

/-- `POST /jobs/:job_id/pay` (`src/unnamed/part_000`, lines 151–228).
`callerId` is the authenticated profile id resolved by the middleware;
`now` the clock read at `new Date()`; `failAt = some k` injects a
persistence failure at the k-th write of the success path
(1 = client update, 2 = contractor update, 3 = job update, 4 = commit),
which the `catch` branch turns into a rollback and a 500.
Returns the response together with the post-commit (or rolled-back)
state. -/
def payJob (s : State) (callerId : Nat) (jobId : Nat) (now : Nat)
    (failAt : Option Nat) : PayResp × State :=
  match findProfile s callerId with
  | none => (.unauthorized, s)
  | some client =>
    if client.ptype ≠ PType.client then (.forbiddenNotClient, s)
    else
      match findJob s jobId with
      | none => (.notFound, s)
      | some job =>
        if jobIsPaid job then (.alreadyPaid, s)
        else
          match findContract s job.contractId with
          | none =>
            -- `job.Contract` is null: `job.Contract.ClientId` throws,
            -- the catch branch rolls back and answers 500.
            (.internalError, s)
          | some contract =>
            if contract.clientId ≠ client.id then (.forbiddenNotOwner, s)
            else if client.balance < job.price then (.insufficientFunds, s)
            else
              match findProfile s contract.contractorId with
              | none =>
                -- `job.Contract.Contractor` is null: `contractor.update`
                -- throws after the client update; rollback restores s.
                (.internalError, s)
              | some contractor =>
                if failAt = some 1 then (.internalError, s)
                else
                  let s1 := updateBalance s client.id (client.balance - job.price)
                  if failAt = some 2 then (.internalError, s)
                  else
                    let s2 := updateBalance s1 contractor.id
                        (contractor.balance + job.price)
                    if failAt = some 3 then (.internalError, s)
                    else
                      let s3 := markPaid s2 jobId now
                      if failAt = some 4 then (.internalError, s)
                      else (.ok, s3)

/-- A JavaScript number as it comes out of `parseFloat`: a finite value,
`NaN`, or `±Infinity`. -/
inductive JsNum where
  | nan
  | inf
  | ninf
  | fin (q : ℚ)
deriving DecidableEq, Repr

/-- `isNaN(x)`. -/
def jsIsNaN : JsNum → Bool
  | .nan => true
  | _ => false

/-- `x <= 0` with JavaScript comparison semantics (`NaN <= 0` is false). -/
def jsLeZero : JsNum → Bool
  | .nan => false
  | .inf => false
  | .ninf => true
  | .fin q => q ≤ 0

/-- `x > c` for a finite `c`, with JavaScript comparison semantics
(`NaN > c` is false, `Infinity > c` is true). -/
def jsGtQ (x : JsNum) (c : ℚ) : Bool :=
  match x with
  | .nan => false
  | .inf => true
  | .ninf => false
  | .fin q => c < q

/-- Round-half-up to two decimal digits: the embedding of
`parseFloat(x.toFixed(2))` on finite values. -/
def round2 (q : ℚ) : ℚ :=
  (round (q * 100) : ℤ) / 100

/-- `parseFloat(x.toFixed(2))`: `NaN` and `±Infinity` print and re-parse
to themselves; finite values are rounded to two decimal digits. -/
def jsRound2 : JsNum → JsNum
  | .nan => .nan
  | .inf => .inf
  | .ninf => .ninf
  | .fin q => .fin (round2 q)

/-- The finite part of a `JsNum` (0 on non-finite values; the deposit
handler only reads it on values that passed the finiteness checks). -/
def JsNum.toQ : JsNum → ℚ
  | .fin q => q
  | _ => 0

/-- The deposit-cap base: sum of `price` over every job whose `paid`
state is unpaid (`false` or NULL) and whose contract has
`ClientId = cid` and status `in_progress` (the `Job.findAll` of the
deposit handler, lines 335–356). -/
def unpaidTotal (s : State) (cid : Nat) : ℚ :=
  ((s.jobs.filter (fun j =>
      isUnpaid j.paid &&
        match findContract s j.contractId with
        | some c => c.clientId = cid && c.status = CStatus.inProgress
        | none => false)).map Job.price).sum

/-- Response of the deposit handler, one constructor per exit path of
`POST /balances/deposit/:userId`. -/
inductive DepResp where
  /-- 200 `Deposit successful` with the new balance. -/
  | ok (newBalance : ℚ)
  /-- 401 from the `getProfile` middleware. -/
  | unauthorized
  /-- 403 `You can only deposit into your own account` (line 307). -/
  | forbiddenNotOwn
  /-- 403 `Only clients can deposit money` (line 312). -/
  | forbiddenNotClient
  /-- 400 `Deposit amount must be a positive number` (lines 319, 325). -/
  | invalidAmount
  /-- 400 `Cannot deposit more than 25% of your total jobs to pay` (line 363). -/
  | depositLimitExceeded
  /-- 500 from the `catch` branch (line 380): persistence error, rolled back. -/
  | internalError
deriving DecidableEq, Repr

/-- Whether a deposit response is the success response. -/
def DepResp.isOk : DepResp → Bool
  | .ok _ => true
  | _ => false

/-- `POST /balances/deposit/:userId` (`src/src/routes/adminRoutes.js`,
lines 299–386).  `callerId` is the authenticated profile id, `userId`
the path parameter, `amount` the request-body amount after `parseFloat`.
`failAt = some k` injects a persistence failure at the k-th write of the
success path (1 = balance update, 2 = commit); the `catch` branch rolls
back and answers 500. -/
def deposit (s : State) (callerId : Nat) (userId : Nat) (amount : JsNum)
    (failAt : Option Nat) : DepResp × State :=
  match findProfile s callerId with
  | none => (.unauthorized, s)
  | some clientProfile =>
    if clientProfile.id ≠ userId then (.forbiddenNotOwn, s)
    else if clientProfile.ptype ≠ PType.client then (.forbiddenNotClient, s)
    else if jsIsNaN amount || jsLeZero amount then (.invalidAmount, s)
    else
      let amount2 := jsRound2 amount
      if jsLeZero amount2 then (.invalidAmount, s)
      else
        let totalJobsToPay := unpaidTotal s clientProfile.id
        let maxDepositAllowed := totalJobsToPay * (1 / 4)
        if jsGtQ amount2 maxDepositAllowed then (.depositLimitExceeded, s)
        else
          -- amount2 passed `≤ 0` and `> cap` with a finite cap, so it is
          -- finite here; its value is `amount2.toQ`.
          if failAt.isSome then (.internalError, s)
          else
            let nb := clientProfile.balance + amount2.toQ
            (.ok nb, updateBalance s clientProfile.id nb)

/-! ## Sample states for witnesses and counterexamples -/

/-- A one-client ledger for deposit scenarios: client 1 (balance 0) has
one in-progress contract with contractor 2 holding one unpaid job priced
0.10, so the unpaid total is 0.10 and the deposit cap is 0.025. -/
def depositExample : State :=
  { profiles := [⟨1, .client, 0⟩, ⟨2, .contractor, 50⟩],
    contracts := [⟨1, 1, 2, .inProgress⟩],
    jobs := [⟨1, 1, (1 : ℚ)/10, some false, none⟩] }

/-- A ledger for payment scenarios: client 1 (balance 100) has one
in-progress contract with contractor 2 (balance 50) holding one unpaid
job priced 30. -/
def payExample : State :=
  { profiles := [⟨1, .client, 100⟩, ⟨2, .contractor, 50⟩],
    contracts := [⟨1, 1, 2, .inProgress⟩],
    jobs := [⟨1, 1, 30, some false, none⟩] }

/-- The payment handler applied to a state whose contract statuses have
been rewritten by `f` (used to state that `payJob` never reads the
status column). -/
def mapContractStatus (s : State) (f : Contract → CStatus) : State :=
  { s with contracts := s.contracts.map (fun c => { c with status := f c }) }

/-- `payExample` after job 1 has been paid at time 7: the expected
commit state (client 70, contractor 80, job paid). -/
def paidExample : State :=
  { profiles := [⟨1, .client, 70⟩, ⟨2, .contractor, 80⟩],
    contracts := [⟨1, 1, 2, .inProgress⟩],
    jobs := [⟨1, 1, 30, some true, some 7⟩] }

/-- A state for the check-order scenario: job 1 is already paid and its
contract belongs to client 3, while client 1 is an unrelated client. -/
def orderExample : State :=
  { profiles := [⟨1, .client, 5⟩, ⟨2, .contractor, 0⟩, ⟨3, .client, 0⟩],
    contracts := [⟨1, 3, 2, .inProgress⟩],
    jobs := [⟨1, 1, 10, some true, some 1⟩] }

/-- Jobs that agree on everything the deposit-cap query reads: same id,
contract, price, and the same unpaid/paid classification (so their
`paid` fields may differ between `false` and NULL). -/
def PaidEquiv (j j' : Job) : Prop :=
  j.id = j'.id ∧ j.contractId = j'.contractId ∧ j.price = j'.price ∧
    isUnpaid j.paid = isUnpaid j'.paid

/-- The state with every job's `paid` field rewritten by `φ` (used to
flip unpaid jobs between `false` and NULL). -/
def mapJobPaid (s : State) (φ : Option Bool → Option Bool) : State :=
  { s with jobs := s.jobs.map (fun j => { j with paid := φ j.paid }) }

/-- `depositExample` with the unpaid job's `paid` field NULL instead of
`false`. -/
def depositExampleNull : State :=
  { profiles := [⟨1, .client, 0⟩, ⟨2, .contractor, 50⟩],
    contracts := [⟨1, 1, 2, .inProgress⟩],
    jobs := [⟨1, 1, (1 : ℚ)/10, none, none⟩] }

/-- A deposit-cap state whose cap is a whole number of cents: client 1
(balance 0) owes one unpaid job priced 2, so the cap is 0.50. -/
def capExample : State :=
  { profiles := [⟨1, .client, 0⟩, ⟨2, .contractor, 50⟩],
    contracts := [⟨1, 1, 2, .inProgress⟩],
    jobs := [⟨1, 1, 2, some false, none⟩] }

/-! ## Basic lemmas about the state accessors -/

/-- `updateBalance` leaves the job table alone. -/
theorem findJob_updateBalance (s : State) (pid : Nat) (b : ℚ) (j : Nat) :
    findJob (updateBalance s pid b) j = findJob s j := rfl

/-- `updateBalance` leaves the contract table alone. -/
theorem findContract_updateBalance (s : State) (pid : Nat) (b : ℚ) (c : Nat) :
    findContract (updateBalance s pid b) c = findContract s c := rfl

/-- `markPaid` leaves the profile table alone. -/
theorem findProfile_markPaid (s : State) (jid now p : Nat) :
    findProfile (markPaid s jid now) p = findProfile s p := rfl

/-- `markPaid` leaves the contract table alone. -/
theorem findContract_markPaid (s : State) (jid now c : Nat) :
    findContract (markPaid s jid now) c = findContract s c := rfl

/-- A profile found by id has that id. -/
theorem findProfile_id {s : State} {pid : Nat} {p : Profile}
    (h : findProfile s pid = some p) : p.id = pid := by
  have := List.find?_some h
  simpa using this

/-- A contract found by id has that id. -/
theorem findContract_id {s : State} {cid : Nat} {c : Contract}
    (h : findContract s cid = some c) : c.id = cid := by
  have := List.find?_some h
  simpa using this

/-- A job found by id has that id. -/
theorem findJob_id {s : State} {jid : Nat} {j : Job}
    (h : findJob s jid = some j) : j.id = jid := by
  have := List.find?_some h
  simpa using this

/-- Looking up a profile after a balance write: the written row carries
the new balance, every other row is unchanged. -/
theorem findProfile_updateBalance (s : State) (pid : Nat) (b : ℚ) (q : Nat) :
    findProfile (updateBalance s pid b) q =
      (findProfile s q).map
        (fun p => if p.id = pid then { p with balance := b } else p) := by
  unfold findProfile updateBalance
  rw [List.find?_map]
  congr 2
  funext p
  by_cases h : p.id = pid <;> simp [h]

/-- Looking up a job after `markPaid`: the target row carries the new
flags, every other row is unchanged. -/
theorem findJob_markPaid (s : State) (jid now : Nat) (q : Nat) :
    findJob (markPaid s jid now) q =
      (findJob s q).map
        (fun j => if j.id = jid
          then { j with paid := some true, paymentDate := some now } else j) := by
  unfold findJob markPaid
  rw [List.find?_map]
  congr 2
  funext j
  by_cases h : j.id = jid <;> simp [h]

/-! ## Run lemmas for the two handlers -/

/-- When every check passes and no persistence failure is injected, the
payment handler commits: it answers 200 and the final state carries the
two balance writes and the paid flag. -/
theorem payJob_success_run
    (s : State) (callerId jobId now : Nat) (failAt : Option Nat)
    (client contractor : Profile) (job : Job) (contract : Contract)
    (hc : findProfile s callerId = some client)
    (hct : client.ptype = PType.client)
    (hj : findJob s jobId = some job)
    (hunpaid : jobIsPaid job = false)
    (hco : findContract s job.contractId = some contract)
    (hown : contract.clientId = client.id)
    (hbal : ¬ client.balance < job.price)
    (hk : findProfile s contract.contractorId = some contractor)
    (hfa : failAt ≠ some 1 ∧ failAt ≠ some 2 ∧ failAt ≠ some 3 ∧ failAt ≠ some 4) :
    payJob s callerId jobId now failAt =
      (.ok, markPaid
        (updateBalance (updateBalance s client.id (client.balance - job.price))
          contractor.id (contractor.balance + job.price)) jobId now) := by
  obtain ⟨hf1, hf2, hf3, hf4⟩ := hfa
  simp [payJob, hc, hj, hco, hk, hct, hunpaid, hown, hbal, hf1, hf2, hf3, hf4]

/-- The paying client (role `client`) and the contract's contractor
(role `contractor`) are distinct rows. -/
theorem client_ne_contractor
    {s : State} {callerId cid : Nat} {client contractor : Profile}
    (hc : findProfile s callerId = some client)
    (hct : client.ptype = PType.client)
    (hk : findProfile s cid = some contractor)
    (hkt : contractor.ptype = PType.contractor) :
    client.id ≠ contractor.id := by
  intro h
  have h1 : client.id = callerId := findProfile_id hc
  have h2 : contractor.id = cid := findProfile_id hk
  have : callerId = cid := by omega
  rw [this, hk] at hc
  cases hc
  rw [hct] at hkt
  cases hkt

/-- Every non-200 exit of the payment handler rolls the transaction
back: the returned state is the pre-state. -/
theorem payJob_not_ok_state (s : State) (callerId jobId now : Nat) (failAt : Option Nat)
    (h : (payJob s callerId jobId now failAt).1 ≠ PayResp.ok) :
    (payJob s callerId jobId now failAt).2 = s := by
  revert h
  unfold payJob
  repeat' split
  all_goals intro h
  all_goals first | rfl | exact absurd rfl h

/-- Every non-200 exit of the deposit handler rolls the transaction
back: the returned state is the pre-state. -/
theorem deposit_not_ok_state (s : State) (callerId userId : Nat) (amount : JsNum)
    (failAt : Option Nat)
    (h : ∀ n : ℚ, (deposit s callerId userId amount failAt).1 ≠ DepResp.ok n) :
    (deposit s callerId userId amount failAt).2 = s := by
  revert h
  unfold deposit
  dsimp only
  repeat' split
  all_goals intro h
  all_goals first | rfl | exact absurd rfl (h _)

/-- `isOk` is false exactly when the response is not a success. -/
theorem depResp_isOk_false_iff (r : DepResp) :
    r.isOk = false ↔ ∀ n : ℚ, r ≠ DepResp.ok n := by
  cases r <;> simp [DepResp.isOk]

/-! ## Claim theorems -/

/-- **C1.** For every successful `payJob` on a job of price `P`, the
paying client's balance decreases by exactly `P`, the contractor's
balance increases by exactly `P`, the job's `paid` flag becomes true and
its `paymentDate` is set; every other profile's balance, every contract,
and every other job keep their prior values (no other amount is
transferred).  The hypotheses are the success conditions of the handler
plus the spec's data-model assumption (§3) that the contract's
contractor slot names a `contractor`-role account. -/
theorem C1_pay_transfers_exact_price
    (s : State) (callerId jobId now : Nat)
    (client contractor : Profile) (job : Job) (contract : Contract)
    (hc : findProfile s callerId = some client)
    (hct : client.ptype = PType.client)
    (hj : findJob s jobId = some job)
    (hunpaid : jobIsPaid job = false)
    (hco : findContract s job.contractId = some contract)
    (hown : contract.clientId = client.id)
    (hbal : ¬ client.balance < job.price)
    (hk : findProfile s contract.contractorId = some contractor)
    (hkt : contractor.ptype = PType.contractor) :
    (payJob s callerId jobId now none).1 = PayResp.ok ∧
    findProfile (payJob s callerId jobId now none).2 client.id =
      some { client with balance := client.balance - job.price } ∧
    findProfile (payJob s callerId jobId now none).2 contractor.id =
      some { contractor with balance := contractor.balance + job.price } ∧
    findJob (payJob s callerId jobId now none).2 jobId =
      some { job with paid := some true, paymentDate := some now } ∧
    (∀ q : Nat, q ≠ client.id → q ≠ contractor.id →
      findProfile (payJob s callerId jobId now none).2 q = findProfile s q) ∧
    (∀ c : Nat, findContract (payJob s callerId jobId now none).2 c = findContract s c) ∧
    (∀ q : Nat, q ≠ jobId → findJob (payJob s callerId jobId now none).2 q = findJob s q) := by
  have hne : client.id ≠ contractor.id := client_ne_contractor hc hct hk hkt
  have hidc : client.id = callerId := findProfile_id hc
  have hidk : contractor.id = contract.contractorId := findProfile_id hk
  have hjid : job.id = jobId := findJob_id hj
  have hrun := payJob_success_run s callerId jobId now none client contractor job contract
    hc hct hj hunpaid hco hown hbal hk (by simp)
  rw [hrun]
  refine ⟨rfl, ?_, ?_, ?_, ?_, ?_, ?_⟩
  · rw [findProfile_markPaid, findProfile_updateBalance, findProfile_updateBalance,
      hidc, hc]
    simp [← hidc, hne]
  · rw [findProfile_markPaid, findProfile_updateBalance, findProfile_updateBalance,
      hidk, hk]
    simp [← hidk, Ne.symm hne]
  · rw [findJob_markPaid, findJob_updateBalance, findJob_updateBalance, hj]
    simp [hjid]
  · intro q hq1 hq2
    rw [findProfile_markPaid, findProfile_updateBalance, findProfile_updateBalance]
    cases hfq : findProfile s q with
    | none => rfl
    | some p =>
      have hpq : p.id = q := findProfile_id hfq
      simp [hpq, hq1, hq2]
  · intro c
    rfl
  · intro q hq
    rw [findJob_markPaid, findJob_updateBalance, findJob_updateBalance]
    cases hfq : findJob s q with
    | none => rfl
    | some j =>
      have hjq : j.id = q := findJob_id hfq
      simp [hjq, hq]

/-- Witness for C1: in `payExample`, client 1 pays job 1 (price 30):
the call succeeds, the client's balance drops from 100 to 70 and the
contractor's rises from 50 to 80. -/
theorem C1_pay_transfers_exact_price_witness :
    (payJob payExample 1 1 7 none).1 = PayResp.ok ∧
    findProfile (payJob payExample 1 1 7 none).2 1 = some ⟨1, PType.client, 70⟩ ∧
    findProfile (payJob payExample 1 1 7 none).2 2 = some ⟨2, PType.contractor, 80⟩ := by
  obtain ⟨h1, h2, h3, -, -, -, -⟩ :=
    C1_pay_transfers_exact_price payExample 1 1 7
      ⟨1, .client, 100⟩ ⟨2, .contractor, 50⟩ ⟨1, 1, 30, some false, none⟩
      ⟨1, 1, 2, .inProgress⟩ rfl rfl rfl rfl rfl rfl (by norm_num) rfl rfl
  norm_num at h2 h3
  exact ⟨h1, h2, h3⟩

/-- **C2.** Every rejected invocation of `payJob` (any non-success
response: NotFound, AlreadyPaid, either Forbidden, InsufficientFunds,
InternalError, or the middleware's Unauthorized) and every rejected
deposit leaves the entire state unchanged — client balance, contractor
balance, job flags — because every failure path rolls the transaction
back before returning. -/
theorem C2_rejection_leaves_state_unchanged
    (s : State) (callerId jobId now userId : Nat) (amount : JsNum)
    (failAt failAt2 : Option Nat) :
    ((payJob s callerId jobId now failAt).1 ≠ PayResp.ok →
      (payJob s callerId jobId now failAt).2 = s) ∧
    (((deposit s callerId userId amount failAt2).1).isOk = false →
      (deposit s callerId userId amount failAt2).2 = s) := by
  refine ⟨payJob_not_ok_state s callerId jobId now failAt, fun h => ?_⟩
  exact deposit_not_ok_state s callerId userId amount failAt2
    ((depResp_isOk_false_iff _).mp h)

/-- Witness for C2: paying a missing job (404) and over-depositing
(DepositLimitExceeded) both return `payExample` unchanged. -/
theorem C2_rejection_leaves_state_unchanged_witness :
    (payJob payExample 1 99 0 none).2 = payExample ∧
    (deposit payExample 1 1 (.fin 500) none).2 = payExample := by
  refine ⟨(C2_rejection_leaves_state_unchanged payExample 1 99 0 1 (.fin 500) none none).1 ?_,
    (C2_rejection_leaves_state_unchanged payExample 1 99 0 1 (.fin 500) none none).2 ?_⟩
  · simp [payJob, findProfile, findJob, payExample, List.find?]
  · simp [deposit, findProfile, unpaidTotal, findContract, isUnpaid, jsIsNaN, jsLeZero,
      jsGtQ, jsRound2, round2, payExample, List.find?, List.filter, DepResp.isOk]
    norm_num [round_eq]

/-- Rewriting contract statuses changes nothing the contract lookup
returns except the status field itself. -/
theorem findContract_mapContractStatus (s : State) (f : Contract → CStatus) (cid : Nat) :
    findContract (mapContractStatus s f) cid =
      (findContract s cid).map (fun c => { c with status := f c }) := by
  unfold findContract mapContractStatus
  rw [List.find?_map]
  congr 2

/-- Inversion of a successful payment: a 200 answer can only come from
the commit path, so every check passed and the final state is the
commit state. -/
theorem payJob_ok_inv (s : State) (c jobId now : Nat) (fa : Option Nat) (s' : State)
    (h : payJob s c jobId now fa = (PayResp.ok, s')) :
    ∃ (client contractor : Profile) (job : Job) (contract : Contract),
      findProfile s c = some client ∧ client.ptype = PType.client ∧
      findJob s jobId = some job ∧ jobIsPaid job = false ∧
      findContract s job.contractId = some contract ∧
      contract.clientId = client.id ∧
      ¬ client.balance < job.price ∧
      findProfile s contract.contractorId = some contractor ∧
      s' = markPaid
        (updateBalance (updateBalance s client.id (client.balance - job.price))
          contractor.id (contractor.balance + job.price)) jobId now := by
  unfold payJob at h
  rcases hc : findProfile s c with - | client <;> rw [hc] at h <;> try dsimp only at h
  · exact absurd h (by simp)
  by_cases hct : client.ptype ≠ PType.client
  · rw [if_pos hct] at h; exact absurd h (by simp)
  rw [if_neg hct] at h
  rw [not_not] at hct
  rcases hj : findJob s jobId with - | job <;> rw [hj] at h <;> try dsimp only at h
  · exact absurd h (by simp)
  by_cases hpd : jobIsPaid job
  · rw [if_pos hpd] at h; exact absurd h (by simp)
  rw [if_neg hpd] at h
  rcases hco : findContract s job.contractId with - | contract <;> rw [hco] at h <;>
    try dsimp only at h
  · exact absurd h (by simp)
  by_cases hown : contract.clientId ≠ client.id
  · rw [if_pos hown] at h; exact absurd h (by simp)
  rw [if_neg hown] at h
  rw [not_not] at hown
  by_cases hbal : client.balance < job.price
  · rw [if_pos hbal] at h; exact absurd h (by simp)
  rw [if_neg hbal] at h
  rcases hk : findProfile s contract.contractorId with - | contractor <;> rw [hk] at h <;>
    try dsimp only at h
  · exact absurd h (by simp)
  by_cases f1 : fa = some 1
  · rw [if_pos f1] at h; exact absurd h (by simp)
  rw [if_neg f1] at h
  by_cases f2 : fa = some 2
  · rw [if_pos f2] at h; exact absurd h (by simp)
  rw [if_neg f2] at h
  by_cases f3 : fa = some 3
  · rw [if_pos f3] at h; exact absurd h (by simp)
  rw [if_neg f3] at h
  by_cases f4 : fa = some 4
  · rw [if_pos f4] at h; exact absurd h (by simp)
  rw [if_neg f4] at h
  injection h with h1 h2
  exact ⟨client, contractor, job, contract, rfl, hct, rfl, Bool.not_eq_true _ ▸ hpd, hco,
    hown, hbal, hk, h2.symm⟩

/-- Concrete run: in `payExample`, client 1 paying job 1 at time 7
succeeds and commits `paidExample`. -/
theorem payExample_run : payJob payExample 1 1 7 none = (PayResp.ok, paidExample) := by
  rw [payJob_success_run payExample 1 1 7 none ⟨1, .client, 100⟩ ⟨2, .contractor, 50⟩
    ⟨1, 1, 30, some false, none⟩ ⟨1, 1, 2, .inProgress⟩ rfl rfl rfl rfl rfl rfl
    (by norm_num) rfl (by simp)]
  simp [markPaid, updateBalance, payExample, paidExample]
  norm_num

/-- **C4.** A job is paid at most once and the paid flag never
reverses: (i) after a first successful `payJob`, every subsequent
`payJob` on the same job by any authenticated client answers
`AlreadyPaid` and leaves the state — in particular both balances —
unchanged; (ii) once a job's `paid` flag is `true`, no `payJob`
invocation (on any job, with any outcome) alters that job's row. -/
theorem C4_pay_at_most_once :
    (∀ (s : State) (c1 jobId now : Nat) (fa : Option Nat) (s' : State),
      payJob s c1 jobId now fa = (PayResp.ok, s') →
      ∀ (c2 now2 : Nat) (fa2 : Option Nat) (p2 : Profile),
        findProfile s' c2 = some p2 → p2.ptype = PType.client →
        payJob s' c2 jobId now2 fa2 = (PayResp.alreadyPaid, s')) ∧
    (∀ (s : State) (c jid2 now : Nat) (fa : Option Nat) (jid : Nat) (jb : Job),
      findJob s jid = some jb → jb.paid = some true →
      findJob (payJob s c jid2 now fa).2 jid = some jb) := by
  constructor
  · intro s c1 jobId now fa s' hs c2 now2 fa2 p2 hp2 hp2t
    obtain ⟨client, contractor, job, contract, hc, hct, hj, hpd, hco, hown, hbal, hk, hs'⟩ :=
      payJob_ok_inv s c1 jobId now fa s' hs
    have hjid : job.id = jobId := findJob_id hj
    have hfind' : findJob s' jobId =
        some { job with paid := some true, paymentDate := some now } := by
      rw [hs', findJob_markPaid, findJob_updateBalance, findJob_updateBalance, hj]
      simp [hjid]
    simp [payJob, hp2, hp2t, hfind', jobIsPaid]
  · intro s c jid2 now fa jid jb hfind hpaid
    by_cases hok : (payJob s c jid2 now fa).1 = PayResp.ok
    · have heq : payJob s c jid2 now fa = (PayResp.ok, (payJob s c jid2 now fa).2) := by
        rw [← hok]
      obtain ⟨client, contractor, job, contract, hc, hct, hj, hpd, hco, hown, hbal, hk, hs'⟩ :=
        payJob_ok_inv s c jid2 now fa (payJob s c jid2 now fa).2 heq
      by_cases hjj : jid = jid2
      · subst hjj
        rw [hfind] at hj
        cases hj
        simp [jobIsPaid, hpaid] at hpd
      · rw [hs', findJob_markPaid, findJob_updateBalance, findJob_updateBalance, hfind]
        have hid : jb.id = jid := findJob_id hfind
        simp [hid, hjj]
    · rw [payJob_not_ok_state s c jid2 now fa hok]
      exact hfind

/-- Witness for C4: in `payExample`, after client 1 pays job 1, a second
identical call answers `AlreadyPaid` with the state untouched, and the
paid job row also survives an unrelated `payJob` attempt. -/
theorem C4_pay_at_most_once_witness :
    payJob paidExample 1 1 8 none = (PayResp.alreadyPaid, paidExample) ∧
    findJob (payJob paidExample 5 1 0 none).2 1 = some ⟨1, 1, 30, some true, some 7⟩ := by
  exact ⟨C4_pay_at_most_once.1 payExample 1 1 7 none paidExample payExample_run 1 8 none
      ⟨1, .client, 70⟩ rfl rfl,
    C4_pay_at_most_once.2 paidExample 5 1 0 none 1 ⟨1, 1, 30, some true, some 7⟩ rfl rfl⟩

/-- **C10.** `payJob` never inspects the status of the job's contract:
rewriting every contract's status arbitrarily (e.g. `in_progress` to
`new` or `terminated`) leaves the response bit-for-bit identical and
produces the same final state up to the same status rewriting — so a
payment on a `new` or `terminated` contract succeeds exactly as on an
`in_progress` one; only the deposit handler's cap query filters on
contract status. -/
theorem C10_contract_status_ignored (s : State) (f : Contract → CStatus)
    (callerId jobId now : Nat) (fa : Option Nat) :
    payJob (mapContractStatus s f) callerId jobId now fa =
      ((payJob s callerId jobId now fa).1,
        mapContractStatus (payJob s callerId jobId now fa).2 f) := by
  have hp : ∀ x : Nat, findProfile (mapContractStatus s f) x = findProfile s x :=
    fun _ => rfl
  have hjg : ∀ x : Nat, findJob (mapContractStatus s f) x = findJob s x :=
    fun _ => rfl
  rcases hc : findProfile s callerId with - | client
  · simp [payJob, hp, hc]
  by_cases hct : client.ptype ≠ PType.client
  · simp [payJob, hp, hc, hct]
  rcases hj : findJob s jobId with - | job
  · simp [payJob, hp, hjg, hc, hct, hj]
  by_cases hpd : jobIsPaid job
  · simp [payJob, hp, hjg, hc, hct, hj, hpd]
  rcases hco : findContract s job.contractId with - | contract
  · simp [payJob, hp, hjg, hc, hct, hj, hpd, hco, findContract_mapContractStatus]
  by_cases hown : contract.clientId ≠ client.id
  · simp [payJob, hp, hjg, hc, hct, hj, hpd, hco, hown, findContract_mapContractStatus]
  by_cases hbal : client.balance < job.price
  · simp [payJob, hp, hjg, hc, hct, hj, hpd, hco, hown, hbal, findContract_mapContractStatus]
  rcases hk : findProfile s contract.contractorId with - | contractor
  · simp [payJob, hp, hjg, hc, hct, hj, hpd, hco, hown, hbal, hk,
      findContract_mapContractStatus]
  by_cases f1 : fa = some 1
  · simp [payJob, hp, hjg, hc, hct, hj, hpd, hco, hown, hbal, hk, f1,
      findContract_mapContractStatus]
  by_cases f2 : fa = some 2
  · simp [payJob, hp, hjg, hc, hct, hj, hpd, hco, hown, hbal, hk, f1, f2,
      findContract_mapContractStatus]
  by_cases f3 : fa = some 3
  · simp [payJob, hp, hjg, hc, hct, hj, hpd, hco, hown, hbal, hk, f1, f2, f3,
      findContract_mapContractStatus]
  by_cases f4 : fa = some 4
  · simp [payJob, hp, hjg, hc, hct, hj, hpd, hco, hown, hbal, hk, f1, f2, f3, f4,
      findContract_mapContractStatus]
  · have h1 := payJob_success_run s callerId jobId now fa client contractor job contract
      hc (not_not.mp hct) hj (Bool.not_eq_true _ ▸ hpd) hco (not_not.mp hown) hbal hk
      ⟨f1, f2, f3, f4⟩
    have h2 := payJob_success_run (mapContractStatus s f) callerId jobId now fa client
      contractor job { contract with status := f contract }
      (hp callerId ▸ hc) (not_not.mp hct) (hjg jobId ▸ hj) (Bool.not_eq_true _ ▸ hpd)
      (by rw [findContract_mapContractStatus, hco]; rfl) (not_not.mp hown) hbal
      (hp _ ▸ hk) ⟨f1, f2, f3, f4⟩
    rw [h1, h2]
    rfl

/-- **C5.** (i) A client whose balance is below the job's price is
rejected with `InsufficientFunds` and no balance changes (the returned
state is the pre-state); (ii) consequently every payment the handler
approves leaves the paying client's balance at exactly
`B - price ≥ 0`, never negative (the contractor-role hypothesis is the
spec's data-model assumption §3). -/
theorem C5_insufficient_funds_nonneg_balance :
    (∀ (s : State) (callerId jobId now : Nat) (fa : Option Nat)
       (client : Profile) (job : Job) (contract : Contract),
      findProfile s callerId = some client → client.ptype = PType.client →
      findJob s jobId = some job → jobIsPaid job = false →
      findContract s job.contractId = some contract → contract.clientId = client.id →
      client.balance < job.price →
      payJob s callerId jobId now fa = (PayResp.insufficientFunds, s)) ∧
    (∀ (s : State) (callerId jobId now : Nat) (fa : Option Nat) (s' : State)
       (client contractor : Profile) (job : Job) (contract : Contract),
      payJob s callerId jobId now fa = (PayResp.ok, s') →
      findProfile s callerId = some client →
      findJob s jobId = some job →
      findContract s job.contractId = some contract →
      findProfile s contract.contractorId = some contractor →
      contractor.ptype = PType.contractor →
      findProfile s' client.id = some { client with balance := client.balance - job.price } ∧
      0 ≤ client.balance - job.price) := by
  constructor
  · intro s callerId jobId now fa client job contract hc hct hj hunpaid hco hown hlt
    simp [payJob, hc, hct, hj, hunpaid, hco, hown, hlt]
  · intro s callerId jobId now fa s' client contractor job contract hs hc hj hco hk hkt
    obtain ⟨client', contractor', job', contract', hc', hct', hj', hpd', hco', hown', hbal',
      hk', hs'⟩ := payJob_ok_inv s callerId jobId now fa s' hs
    rw [hc] at hc'
    injection hc' with e1
    subst e1
    rw [hj] at hj'
    injection hj' with e2
    subst e2
    rw [hco] at hco'
    injection hco' with e3
    subst e3
    rw [hk] at hk'
    injection hk' with e4
    subst e4
    have hne : client.id ≠ contractor.id := client_ne_contractor hc hct' hk hkt
    have hidc : client.id = callerId := findProfile_id hc
    constructor
    · rw [hs', findProfile_markPaid, findProfile_updateBalance, findProfile_updateBalance,
        hidc, hc]
      simp [← hidc, hne]
    · have := not_lt.mp hbal'
      simpa using sub_nonneg.mpr this

/-- Witness for C5: in `depositExample` client 1 (balance 0) cannot pay
job 1 (price 0.10) — `InsufficientFunds`, state unchanged; in
`payExample` the approved payment leaves client 1 at 70 = 100 − 30 ≥ 0. -/
theorem C5_insufficient_funds_nonneg_balance_witness :
    payJob depositExample 1 1 0 none = (PayResp.insufficientFunds, depositExample) ∧
    findProfile paidExample 1 = some ⟨1, PType.client, 70⟩ ∧ (0 : ℚ) ≤ 100 - 30 := by
  refine ⟨C5_insufficient_funds_nonneg_balance.1 depositExample 1 1 0 none
      ⟨1, .client, 0⟩ ⟨1, 1, (1 : ℚ)/10, some false, none⟩ ⟨1, 1, 2, .inProgress⟩
      rfl rfl rfl rfl rfl rfl (by norm_num), ?_, ?_⟩
  · have := (C5_insufficient_funds_nonneg_balance.2 payExample 1 1 7 none paidExample
      ⟨1, .client, 100⟩ ⟨2, .contractor, 50⟩ ⟨1, 1, 30, some false, none⟩
      ⟨1, 1, 2, .inProgress⟩ payExample_run rfl rfl rfl rfl rfl).1
    norm_num at this
    exact this
  · exact (C5_insufficient_funds_nonneg_balance.2 payExample 1 1 7 none paidExample
      ⟨1, .client, 100⟩ ⟨2, .contractor, 50⟩ ⟨1, 1, 30, some false, none⟩
      ⟨1, 1, 2, .inProgress⟩ payExample_run rfl rfl rfl rfl rfl).2

/-- **C6.** Double-pay under concurrency.  Each `payJob` runs as one
atomic transaction against the shared store (the handler opens a
transaction around its whole read-check-write sequence, and spec §5
assumes the store serializes such transactions), so two concurrent
invocations execute in a serialization order; the two invocations of
this scenario are identical, so both orders are this sequence.  On an
unpaid job payable by its client: the first call succeeds, the second
answers `AlreadyPaid` with the state unchanged — exactly one success,
one rejection, and the contractor's balance increases by `price`
exactly once. -/
theorem C6_concurrent_double_pay_single_transfer
    (s : State) (callerId jobId now now2 : Nat)
    (client contractor : Profile) (job : Job) (contract : Contract)
    (hc : findProfile s callerId = some client)
    (hct : client.ptype = PType.client)
    (hj : findJob s jobId = some job)
    (hunpaid : jobIsPaid job = false)
    (hco : findContract s job.contractId = some contract)
    (hown : contract.clientId = client.id)
    (hbal : ¬ client.balance < job.price)
    (hk : findProfile s contract.contractorId = some contractor)
    (hkt : contractor.ptype = PType.contractor) :
    (payJob s callerId jobId now none).1 = PayResp.ok ∧
    payJob (payJob s callerId jobId now none).2 callerId jobId now2 none =
      (PayResp.alreadyPaid, (payJob s callerId jobId now none).2) ∧
    findProfile (payJob s callerId jobId now none).2 contractor.id =
      some { contractor with balance := contractor.balance + job.price } := by
  have hne : client.id ≠ contractor.id := client_ne_contractor hc hct hk hkt
  have hidc : client.id = callerId := findProfile_id hc
  have hidk : contractor.id = contract.contractorId := findProfile_id hk
  have hjid : job.id = jobId := findJob_id hj
  have hrun := payJob_success_run s callerId jobId now none client contractor job contract
    hc hct hj hunpaid hco hown hbal hk (by simp)
  rw [hrun]
  dsimp only
  refine ⟨rfl, ?_, ?_⟩
  · have hcf : findProfile
        (markPaid (updateBalance (updateBalance s client.id (client.balance - job.price))
          contractor.id (contractor.balance + job.price)) jobId now) callerId =
        some { client with balance := client.balance - job.price } := by
      rw [findProfile_markPaid, findProfile_updateBalance, findProfile_updateBalance, hc]
      simp [hne]
    have hjf : findJob
        (markPaid (updateBalance (updateBalance s client.id (client.balance - job.price))
          contractor.id (contractor.balance + job.price)) jobId now) jobId =
        some { job with paid := some true, paymentDate := some now } := by
      rw [findJob_markPaid, findJob_updateBalance, findJob_updateBalance, hj]
      simp [hjid]
    simp [payJob, hcf, hct, hjf, jobIsPaid]
  · rw [findProfile_markPaid, findProfile_updateBalance, findProfile_updateBalance, hidk, hk]
    simp [← hidk, Ne.symm hne]

/-- Witness for C6: in `payExample`, the pair of identical pay calls on
job 1 yields one success then one `AlreadyPaid`, and contractor 2 ends
at exactly 50 + 30. -/
theorem C6_concurrent_double_pay_single_transfer_witness :
    (payJob payExample 1 1 7 none).1 = PayResp.ok ∧
    payJob (payJob payExample 1 1 7 none).2 1 1 8 none =
      (PayResp.alreadyPaid, (payJob payExample 1 1 7 none).2) ∧
    findProfile (payJob payExample 1 1 7 none).2 2 =
      some ⟨2, PType.contractor, 50 + 30⟩ :=
  C6_concurrent_double_pay_single_transfer payExample 1 1 7 8
    ⟨1, .client, 100⟩ ⟨2, .contractor, 50⟩ ⟨1, 1, 30, some false, none⟩
    ⟨1, 1, 2, .inProgress⟩ rfl rfl rfl rfl rfl rfl (by norm_num) rfl rfl

/-- **C9.** The payment handler applies its checks in the order
AlreadyPaid (line 188), then ownership (line 194), then funds
(line 200): (i) an existing, already-paid job requested by a client who
does not own its contract is rejected `AlreadyPaid`, not `Forbidden`;
(ii) an unpaid job owned by the caller with insufficient balance is
rejected `InsufficientFunds`. -/
theorem C9_check_order :
    (∀ (s : State) (callerId jobId now : Nat) (fa : Option Nat)
       (client : Profile) (job : Job) (contract : Contract),
      findProfile s callerId = some client → client.ptype = PType.client →
      findJob s jobId = some job → jobIsPaid job = true →
      findContract s job.contractId = some contract → contract.clientId ≠ client.id →
      payJob s callerId jobId now fa = (PayResp.alreadyPaid, s)) ∧
    (∀ (s : State) (callerId jobId now : Nat) (fa : Option Nat)
       (client : Profile) (job : Job) (contract : Contract),
      findProfile s callerId = some client → client.ptype = PType.client →
      findJob s jobId = some job → jobIsPaid job = false →
      findContract s job.contractId = some contract → contract.clientId = client.id →
      client.balance < job.price →
      payJob s callerId jobId now fa = (PayResp.insufficientFunds, s)) := by
  constructor
  · intro s callerId jobId now fa client job contract hc hct hj hpaid hco hnotown
    simp [payJob, hc, hct, hj, hpaid]
  · intro s callerId jobId now fa client job contract hc hct hj hunpaid hco hown hlt
    simp [payJob, hc, hct, hj, hunpaid, hco, hown, hlt]

/-- Witness for C9: in `orderExample`, client 1 (not the owner, which is
client 3) paying the already-paid job 1 gets `AlreadyPaid`; in
`depositExample`, the owning client with balance 0 < price 0.10 gets
`InsufficientFunds`. -/
theorem C9_check_order_witness :
    payJob orderExample 1 1 0 none = (PayResp.alreadyPaid, orderExample) ∧
    payJob depositExample 1 1 0 none = (PayResp.insufficientFunds, depositExample) :=
  ⟨C9_check_order.1 orderExample 1 1 0 none ⟨1, .client, 5⟩ ⟨1, 1, 10, some true, some 1⟩
      ⟨1, 3, 2, .inProgress⟩ rfl rfl rfl rfl rfl (by decide),
    C9_check_order.2 depositExample 1 1 0 none ⟨1, .client, 0⟩
      ⟨1, 1, (1 : ℚ)/10, some false, none⟩ ⟨1, 1, 2, .inProgress⟩
      rfl rfl rfl rfl rfl rfl (by norm_num)⟩

/-- The deposit-cap base only depends on the unpaid classification of
each job, not on whether an unpaid job stores `false` or NULL. -/
theorem unpaidTotal_congr (s s' : State) (cid : Nat)
    (hco : s'.contracts = s.contracts)
    (hjobs : List.Forall₂ PaidEquiv s.jobs s'.jobs) :
    unpaidTotal s' cid = unpaidTotal s cid := by
  obtain ⟨ps, cs, js⟩ := s
  obtain ⟨ps', cs', js'⟩ := s'
  dsimp only at hco hjobs
  subst hco
  unfold unpaidTotal
  dsimp only
  induction hjobs with
  | nil => rfl
  | cons h t ih =>
    obtain ⟨hid, hcid, hprice, hunp⟩ := h
    rw [List.filter_cons, List.filter_cons]
    unfold findContract at *
    dsimp only at *
    rw [hunp, hcid]
    split
    · simp only [List.map_cons, List.sum_cons, hprice, ih]
    · exact ih

/-- Rewriting `paid` fields changes nothing else a job lookup returns. -/
theorem findJob_mapJobPaid (s : State) (φ : Option Bool → Option Bool) (jid : Nat) :
    findJob (mapJobPaid s φ) jid =
      (findJob s jid).map (fun j => { j with paid := φ j.paid }) := by
  unfold findJob mapJobPaid
  rw [List.find?_map]
  congr 2

/-- The handler's strict `=== true` test is the complement of the
query's unpaid filter, on every tri-state value. -/
theorem jobIsPaid_not_isUnpaid (p : Option Bool) :
    (decide (p = some true)) = !isUnpaid p := by
  rcases p with - | b
  · simp [isUnpaid]
  · cases b <;> simp [isUnpaid]

/-- Any `paid` rewriting that preserves the unpaid classification
preserves the handler's paid test. -/
theorem jobIsPaid_mapJobPaid (φ : Option Bool → Option Bool)
    (hφ : ∀ p, isUnpaid (φ p) = isUnpaid p) (j : Job) :
    jobIsPaid { j with paid := φ j.paid } = jobIsPaid j := by
  unfold jobIsPaid
  dsimp only
  rw [jobIsPaid_not_isUnpaid, jobIsPaid_not_isUnpaid, hφ]

/-- The payment handler's response is unchanged by any rewriting of
`paid` fields that preserves the unpaid classification. -/
theorem payJob_resp_mapJobPaid (s : State) (φ : Option Bool → Option Bool)
    (callerId jobId now : Nat) (fa : Option Nat)
    (hφ : ∀ p, isUnpaid (φ p) = isUnpaid p) :
    (payJob (mapJobPaid s φ) callerId jobId now fa).1 =
      (payJob s callerId jobId now fa).1 := by
  have hp : ∀ x : Nat, findProfile (mapJobPaid s φ) x = findProfile s x := fun _ => rfl
  have hfc : ∀ x : Nat, findContract (mapJobPaid s φ) x = findContract s x := fun _ => rfl
  rcases hc : findProfile s callerId with - | client
  · simp [payJob, hp, hc]
  by_cases hct : client.ptype ≠ PType.client
  · simp [payJob, hp, hc, hct]
  rcases hj : findJob s jobId with - | job
  · simp [payJob, hp, hc, hct, hj, findJob_mapJobPaid]
  by_cases hpd : jobIsPaid job
  · simp [payJob, hp, hc, hct, hj, hpd, findJob_mapJobPaid, jobIsPaid_mapJobPaid φ hφ]
  rcases hco : findContract s job.contractId with - | contract
  · simp [payJob, hp, hfc, hc, hct, hj, hpd, hco, findJob_mapJobPaid,
      jobIsPaid_mapJobPaid φ hφ]
  by_cases hown : contract.clientId ≠ client.id
  · simp [payJob, hp, hfc, hc, hct, hj, hpd, hco, hown, findJob_mapJobPaid,
      jobIsPaid_mapJobPaid φ hφ]
  by_cases hbal : client.balance < job.price
  · simp [payJob, hp, hfc, hc, hct, hj, hpd, hco, hown, hbal, findJob_mapJobPaid,
      jobIsPaid_mapJobPaid φ hφ]
  rcases hk : findProfile s contract.contractorId with - | contractor
  · simp [payJob, hp, hfc, hc, hct, hj, hpd, hco, hown, hbal, hk, findJob_mapJobPaid,
      jobIsPaid_mapJobPaid φ hφ]
  by_cases f1 : fa = some 1
  · simp [payJob, hp, hfc, hc, hct, hj, hpd, hco, hown, hbal, hk, f1, findJob_mapJobPaid,
      jobIsPaid_mapJobPaid φ hφ]
  by_cases f2 : fa = some 2
  · simp [payJob, hp, hfc, hc, hct, hj, hpd, hco, hown, hbal, hk, f1, f2, findJob_mapJobPaid,
      jobIsPaid_mapJobPaid φ hφ]
  by_cases f3 : fa = some 3
  · simp [payJob, hp, hfc, hc, hct, hj, hpd, hco, hown, hbal, hk, f1, f2, f3,
      findJob_mapJobPaid, jobIsPaid_mapJobPaid φ hφ]
  by_cases f4 : fa = some 4
  · simp [payJob, hp, hfc, hc, hct, hj, hpd, hco, hown, hbal, hk, f1, f2, f3, f4,
      findJob_mapJobPaid, jobIsPaid_mapJobPaid φ hφ]
  · have h1 := payJob_success_run s callerId jobId now fa client contractor job contract
      hc (not_not.mp hct) hj (Bool.not_eq_true _ ▸ hpd) hco (not_not.mp hown) hbal hk
      ⟨f1, f2, f3, f4⟩
    have h2 := payJob_success_run (mapJobPaid s φ) callerId jobId now fa client
      contractor { job with paid := φ job.paid } contract
      (hp callerId ▸ hc)
      (not_not.mp hct)
      (by rw [findJob_mapJobPaid, hj]; rfl)
      (by rw [jobIsPaid_mapJobPaid φ hφ]; exact Bool.not_eq_true _ ▸ hpd)
      (hfc _ ▸ hco) (not_not.mp hown) hbal (hp _ ▸ hk) ⟨f1, f2, f3, f4⟩
    rw [h1, h2]

/-- **C8.** A job with `paid = NULL` is treated identically to one with
`paid = false` by both operations: (i) the deposit-cap base (hence the
cap, its quarter) is unchanged between any two states whose jobs agree
up to flips of unpaid jobs between `false` and NULL; (ii) the payment
handler's eligibility test `paid === true` accepts both `false` and
NULL as unpaid; (iii) the payment handler's response is unchanged by
any `paid` rewriting that preserves the unpaid classification. -/
theorem C8_null_false_equivalent :
    (∀ (s s' : State) (cid : Nat),
      s'.contracts = s.contracts →
      List.Forall₂ PaidEquiv s.jobs s'.jobs →
      unpaidTotal s' cid = unpaidTotal s cid) ∧
    (∀ j : Job, j.paid = some false ∨ j.paid = none → jobIsPaid j = false) ∧
    (∀ (s : State) (φ : Option Bool → Option Bool) (callerId jobId now : Nat)
       (fa : Option Nat),
      (∀ p, isUnpaid (φ p) = isUnpaid p) →
      (payJob (mapJobPaid s φ) callerId jobId now fa).1 =
        (payJob s callerId jobId now fa).1) := by
  refine ⟨unpaidTotal_congr, ?_, fun s φ c j n fa hφ => payJob_resp_mapJobPaid s φ c j n fa hφ⟩
  rintro j (h | h) <;> simp [jobIsPaid, h]

/-- Witness for C8: flipping the unpaid job of `depositExample` between
`false` and NULL leaves the cap base at 0.10, the job counts as unpaid
either way, and the pay response is identical. -/
theorem C8_null_false_equivalent_witness :
    unpaidTotal depositExampleNull 1 = unpaidTotal depositExample 1 ∧
    jobIsPaid ⟨1, 1, (1 : ℚ)/10, some false, none⟩ = false ∧
    (payJob (mapJobPaid depositExampleNull fun p => if p = none then some false else p)
        1 1 0 none).1 =
      (payJob depositExampleNull 1 1 0 none).1 :=
  ⟨C8_null_false_equivalent.1 depositExample depositExampleNull 1 rfl
      (List.Forall₂.cons ⟨rfl, rfl, rfl, rfl⟩ List.Forall₂.nil),
    C8_null_false_equivalent.2.1 ⟨1, 1, (1 : ℚ)/10, some false, none⟩ (Or.inl rfl),
    C8_null_false_equivalent.2.2 depositExampleNull
      (fun p => if p = none then some false else p) 1 1 0 none (by decide)⟩

/-! ## Rounding and cap lemmas for the deposit handler -/

/-- Rounding to two digits fixes zero. -/
theorem round2_zero : round2 0 = 0 := by
  unfold round2
  norm_num

/-- Rounding to two digits is monotone. -/
theorem round2_mono {x y : ℚ} (h : x ≤ y) : round2 x ≤ round2 y := by
  unfold round2
  have hr : round (x * 100) ≤ round (y * 100) := by
    rw [round_eq, round_eq]
    exact Int.floor_le_floor (by linarith)
  have h2 : ((round (x * 100) : ℤ) : ℚ) ≤ ((round (y * 100) : ℤ) : ℚ) := by
    exact_mod_cast hr
  linarith

/-- Rounding to two digits loses less than half a cent downward. -/
theorem round2_gt_sub {x : ℚ} : x - 1/200 < round2 x := by
  unfold round2
  have h1 : (x * 100 + 1/2) - 1 < (⌊x * 100 + 1/2⌋ : ℚ) := Int.sub_one_lt_floor _
  rw [round_eq]
  linarith

/-- With non-negative job prices the cap base is non-negative. -/
theorem unpaidTotal_nonneg (s : State) (cid : Nat)
    (hprices : ∀ j ∈ s.jobs, 0 ≤ j.price) : 0 ≤ unpaidTotal s cid := by
  unfold unpaidTotal
  apply List.sum_nonneg
  intro x hx
  obtain ⟨j, hj, rfl⟩ := List.mem_map.mp hx
  exact hprices j (List.mem_of_mem_filter hj)

/-- Concrete cap base of `capExample`: one unpaid in-progress job priced 2. -/
theorem capExample_unpaidTotal : unpaidTotal capExample 1 = 2 := by
  simp [unpaidTotal, capExample, findContract, List.find?, List.filter, isUnpaid]

/-- Concrete cap base of `depositExample`: one unpaid in-progress job priced 0.10. -/
theorem depositExample_unpaidTotal : unpaidTotal depositExample 1 = 1/10 := by
  simp [unpaidTotal, depositExample, findContract, List.find?, List.filter, isUnpaid]

/-- **C3, counterexample.**  The claim "depositing exactly `0.25*U`
succeeds" fails on the code: in `depositExample` the unpaid total is
`U = 0.10`, so `0.25*U = 0.005`; the handler rounds the request to two
digits (`0.005 ↦ 0.01`), `0.01 > 0.005`, and the deposit is rejected
with `DepositLimitExceeded` instead of succeeding. -/
theorem C3_exact_quarter_deposit_cex :
    unpaidTotal depositExample 1 = 1/10 ∧
    ((1 : ℚ)/40) = (1/4) * (1/10) ∧
    (deposit depositExample 1 1 (.fin ((1 : ℚ)/40)) none).1 =
      DepResp.depositLimitExceeded := by
  refine ⟨depositExample_unpaidTotal, by norm_num, ?_⟩
  simp [deposit, findProfile, findContract, unpaidTotal, isUnpaid, jsIsNaN, jsLeZero,
    jsGtQ, jsRound2, round2, depositExample, List.find?, List.filter, round_eq]
  norm_num [Int.floor_eq_iff]

/-- **C3, amended.**  For a client with unpaid total `U` (non-negative
prices), a deposit request is rejected with `DepositLimitExceeded` iff
its two-digit rounding exceeds the cap `0.25*U`; depositing exactly
`0.25*U` succeeds with new balance = old + `0.25*U` provided `0.25*U`
is itself a two-digit value (e.g. a whole number of cents) and positive
— the rounding of the request must not overshoot the cap, which is what
the counterexample exploits; depositing `0.25*U + 0.01` is always
rejected with `DepositLimitExceeded`; and when `U = 0` every positive
deposit is rejected. -/
theorem C3_deposit_cap_amended
    (s : State) (callerId userId : Nat) (cp : Profile)
    (hc : findProfile s callerId = some cp)
    (hid : cp.id = userId)
    (ht : cp.ptype = PType.client)
    (hprices : ∀ j ∈ s.jobs, 0 ≤ j.price) :
    (∀ (amount : JsNum) (failAt : Option Nat),
      ((deposit s callerId userId amount failAt).1 = DepResp.depositLimitExceeded ↔
        jsGtQ (jsRound2 amount) (unpaidTotal s cp.id * (1/4)) = true)) ∧
    (round2 (unpaidTotal s cp.id * (1/4)) = unpaidTotal s cp.id * (1/4) →
      0 < unpaidTotal s cp.id * (1/4) →
      deposit s callerId userId (.fin (unpaidTotal s cp.id * (1/4))) none =
        (DepResp.ok (cp.balance + unpaidTotal s cp.id * (1/4)),
          updateBalance s cp.id (cp.balance + unpaidTotal s cp.id * (1/4)))) ∧
    (∀ failAt : Option Nat,
      (deposit s callerId userId (.fin (unpaidTotal s cp.id * (1/4) + 1/100)) failAt).1 =
        DepResp.depositLimitExceeded) ∧
    (unpaidTotal s cp.id = 0 →
      ∀ (q : ℚ) (failAt : Option Nat), 0 < q →
        ((deposit s callerId userId (.fin q) failAt).1).isOk = false) := by
  subst hid
  have hU : 0 ≤ unpaidTotal s cp.id := unpaidTotal_nonneg s cp.id hprices
  have hcap : 0 ≤ unpaidTotal s cp.id * (4 : ℚ)⁻¹ := by
    have h4 : (0:ℚ) ≤ 4⁻¹ := by norm_num
    exact mul_nonneg hU h4
  simp only [one_div]
  refine ⟨?_, ?_, ?_, ?_⟩
  · intro amount failAt
    rcases amount with - | - | - | q
    · simp [deposit, hc, ht, jsIsNaN, jsLeZero, jsRound2, jsGtQ]
    · simp [deposit, hc, ht, jsIsNaN, jsLeZero, jsRound2, jsGtQ]
    · simp [deposit, hc, ht, jsIsNaN, jsLeZero, jsRound2, jsGtQ]
    · by_cases h1 : q ≤ 0
      · have hr0 : round2 q ≤ 0 := round2_zero ▸ round2_mono h1
        simp [deposit, hc, ht, jsIsNaN, jsLeZero, jsRound2, jsGtQ, h1]
        linarith
      · by_cases h2 : round2 q ≤ 0
        · simp [deposit, hc, ht, jsIsNaN, jsLeZero, jsRound2, jsGtQ, h1, h2]
          linarith
        · by_cases h3 : unpaidTotal s cp.id * (4 : ℚ)⁻¹ < round2 q
          · simp [deposit, hc, ht, jsIsNaN, jsLeZero, jsRound2, jsGtQ, h1, h2, h3]
          · rcases failAt with - | k
            · simp [deposit, hc, ht, jsIsNaN, jsLeZero, jsRound2, jsGtQ, h1, h2, h3]
            · simp [deposit, hc, ht, jsIsNaN, jsLeZero, jsRound2, jsGtQ, h1, h2, h3]
  · intro hr hpos
    have h1 : ¬ unpaidTotal s cp.id * (4 : ℚ)⁻¹ ≤ 0 := not_le.mpr hpos
    simp [deposit, hc, ht, jsIsNaN, jsLeZero, jsRound2, jsGtQ, JsNum.toQ, hr, h1,
      lt_irrefl]
  · intro failAt
    have hpos : ¬ unpaidTotal s cp.id * (4 : ℚ)⁻¹ + (100 : ℚ)⁻¹ ≤ 0 := by
      intro hcon
      norm_num at hcon
      linarith
    have hgt : unpaidTotal s cp.id * (4 : ℚ)⁻¹ <
        round2 (unpaidTotal s cp.id * (4 : ℚ)⁻¹ + (100 : ℚ)⁻¹) := by
      have h0 := round2_gt_sub (x := unpaidTotal s cp.id * (4 : ℚ)⁻¹ + (100 : ℚ)⁻¹)
      norm_num at h0 ⊢
      linarith
    have h2 : ¬ round2 (unpaidTotal s cp.id * (4 : ℚ)⁻¹ + (100 : ℚ)⁻¹) ≤ 0 := by
      intro hcon
      norm_num at hcon hgt ⊢
      linarith
    simp [deposit, hc, ht, jsIsNaN, jsLeZero, jsRound2, jsGtQ, hpos, h2, hgt]
  · intro hU0 q failAt hq
    by_cases h1 : q ≤ 0
    · exact absurd hq (not_lt.mpr h1)
    by_cases h2 : round2 q ≤ 0
    · simp [deposit, hc, ht, jsIsNaN, jsLeZero, jsRound2, jsGtQ, h1, h2, DepResp.isOk]
    · have h3 : unpaidTotal s cp.id * (4 : ℚ)⁻¹ < round2 q := by
        rw [hU0]
        simpa using not_le.mp h2
      simp [deposit, hc, ht, jsIsNaN, jsLeZero, jsRound2, jsGtQ, h1, h2, h3,
        DepResp.isOk]

/-- Witness for the amended C3: in `capExample` (`U = 2`, cap `0.50`):
a request of 1 is rejected iff its rounding exceeds the cap (it does);
depositing exactly 0.50 succeeds with new balance 0 + 0.50; depositing
0.51 is rejected; and in `paidExample` (no unpaid jobs, `U = 0`) the
positive deposit 5 is rejected. -/
theorem C3_deposit_cap_amended_witness :
    ((deposit capExample 1 1 (.fin 1) none).1 = DepResp.depositLimitExceeded ↔
      jsGtQ (jsRound2 (.fin 1)) (unpaidTotal capExample 1 * (1/4)) = true) ∧
    deposit capExample 1 1 (.fin (unpaidTotal capExample 1 * (1/4))) none =
      (DepResp.ok ((0 : ℚ) + unpaidTotal capExample 1 * (1/4)),
        updateBalance capExample 1 ((0 : ℚ) + unpaidTotal capExample 1 * (1/4))) ∧
    (deposit capExample 1 1 (.fin (unpaidTotal capExample 1 * (1/4) + 1/100)) none).1 =
      DepResp.depositLimitExceeded ∧
    ((deposit paidExample 1 1 (.fin 5) none).1).isOk = false := by
  have hpr : ∀ j ∈ capExample.jobs, 0 ≤ j.price := by
    intro j hj
    simp [capExample] at hj
    subst hj
    norm_num
  have hpr2 : ∀ j ∈ paidExample.jobs, 0 ≤ j.price := by
    intro j hj
    simp [paidExample] at hj
    subst hj
    norm_num
  have h := C3_deposit_cap_amended capExample 1 1 ⟨1, .client, 0⟩ rfl rfl rfl hpr
  have h2 := C3_deposit_cap_amended paidExample 1 1 ⟨1, .client, 70⟩ rfl rfl rfl hpr2
  refine ⟨h.1 (.fin 1) none, ?_, h.2.2.1 none, ?_⟩
  · exact h.2.1
      (by rw [capExample_unpaidTotal]; norm_num [round2, round_eq, Int.floor_eq_iff])
      (by rw [capExample_unpaidTotal]; norm_num)
  · exact h2.2.2.2
      (by simp [unpaidTotal, paidExample, findContract, List.find?, List.filter, isUnpaid])
      5 none (by norm_num)

/-- **C7, counterexample.**  A deposit of `+Infinity` by a valid
client is not rejected with `InvalidAmount`: `isNaN(Infinity)` is
false and `Infinity <= 0` is false, so the amount validation passes
and the request is rejected later by the cap check with
`DepositLimitExceeded`. -/
theorem C7_infinity_deposit_cex :
    (deposit depositExample 1 1 .inf none).1 = DepResp.depositLimitExceeded ∧
    (deposit depositExample 1 1 .inf none).1 ≠ DepResp.invalidAmount := by
  constructor
  · simp [deposit, findProfile, depositExample, List.find?, jsIsNaN, jsLeZero, jsRound2,
      jsGtQ]
  · simp [deposit, findProfile, depositExample, List.find?, jsIsNaN, jsLeZero, jsRound2,
      jsGtQ]

/-- **C7, amended.**  For a deposit request by the account's own
client-role caller: a `NaN`, `-Infinity` or non-positive finite amount
fails with `InvalidAmount` and leaves the state unchanged; an amount of
`+Infinity` instead passes the amount validation and fails with
`DepositLimitExceeded` (the cap is finite), also leaving the state
unchanged. -/
theorem C7_invalid_amount_amended
    (s : State) (callerId userId : Nat) (cp : Profile)
    (hc : findProfile s callerId = some cp)
    (hid : cp.id = userId)
    (ht : cp.ptype = PType.client) :
    (∀ failAt : Option Nat,
      deposit s callerId userId .nan failAt = (DepResp.invalidAmount, s)) ∧
    (∀ failAt : Option Nat,
      deposit s callerId userId .ninf failAt = (DepResp.invalidAmount, s)) ∧
    (∀ (q : ℚ) (failAt : Option Nat), q ≤ 0 →
      deposit s callerId userId (.fin q) failAt = (DepResp.invalidAmount, s)) ∧
    (∀ failAt : Option Nat,
      deposit s callerId userId .inf failAt = (DepResp.depositLimitExceeded, s)) := by
  subst hid
  refine ⟨?_, ?_, ?_, ?_⟩
  · intro failAt
    simp [deposit, hc, ht, jsIsNaN, jsLeZero]
  · intro failAt
    simp [deposit, hc, ht, jsIsNaN, jsLeZero]
  · intro q failAt hq
    simp [deposit, hc, ht, jsIsNaN, jsLeZero, hq]
  · intro failAt
    simp [deposit, hc, ht, jsIsNaN, jsLeZero, jsRound2, jsGtQ]

/-- Witness for the amended C7: in `depositExample`, `NaN`, `-5` and
`+Infinity` deposits are rejected as stated, with the state returned
unchanged. -/
theorem C7_invalid_amount_amended_witness :
    deposit depositExample 1 1 .nan none = (DepResp.invalidAmount, depositExample) ∧
    deposit depositExample 1 1 (.fin (-5)) none =
      (DepResp.invalidAmount, depositExample) ∧
    deposit depositExample 1 1 .inf none =
      (DepResp.depositLimitExceeded, depositExample) :=
  ⟨(C7_invalid_amount_amended depositExample 1 1 ⟨1, .client, 0⟩ rfl rfl rfl).1 none,
    (C7_invalid_amount_amended depositExample 1 1 ⟨1, .client, 0⟩ rfl rfl rfl).2.2.1
      (-5) none (by norm_num),
    (C7_invalid_amount_amended depositExample 1 1 ⟨1, .client, 0⟩ rfl rfl rfl).2.2.2 none⟩
